import Mathlib

/-!
Shallow embedding of the BOQMate request-defense pipeline.

Sources embedded:
* `backend/security.py` — `SecurityManager` (rate limiter, block set, input
  validation against the suspicious-pattern list, filename sanitization, file
  type check, JWT issue/verify, security event log);
* `backend/middleware/security_middleware.py` — the four middleware classes;
* `backend/main.py` — the middleware registration order.

Modelling conventions:
* Clock values are integers (the Python code uses `time.time()` floats and
  `datetime` values, of which only comparison, addition and subtraction are
  used; the claims under study use integral instants).
* Strings under character-level scrutiny are `List Char`; `Char.toLower` and
  the ASCII readings of the regex classes `\w` and `\s` agree with Python's
  Unicode-aware versions on every string these theorems evaluate.
* Python's `re.search` is embedded by a Brzozowski-derivative matcher over a
  regex AST; each entry of `suspicious_patterns` is translated from the
  corresponding regex literal in `backend/security.py` lines 26-195.
* The JWT wire format is kept symbolic: a token is its claim set together
  with the key it was signed with, and a signature check is a key equality
  test.  This models `jose.jwt.encode`/`jose.jwt.decode` faithfully at the
  level the claims observe (cryptographic primitives are out of scope).
-/

namespace BOQMate

/-! ## A fragment of Python `re`: regular expressions with derivatives -/

/-- Regex AST covering the constructs used by `suspicious_patterns`:
character classes, concatenation, alternation, Kleene star.  Python's lazy
quantifiers (`.*?`) agree with greedy ones for match existence, which is all
`re.search`'s boolean use observes. -/
inductive Regex where
  | zero : Regex
  | eps : Regex
  | chr (p : Char → Bool) : Regex
  | cat (a b : Regex) : Regex
  | alt (a b : Regex) : Regex
  | star (a : Regex) : Regex

/-- Whether the regex accepts the empty string. -/
def nullable : Regex → Bool
  | .zero => false
  | .eps => true
  | .chr _ => false
  | .cat a b => nullable a && nullable b
  | .alt a b => nullable a || nullable b
  | .star _ => true

/-- Concatenation, collapsing the absorbing/neutral elements. -/
def rcat : Regex → Regex → Regex
  | .zero, _ => .zero
  | _, .zero => .zero
  | .eps, b => b
  | a, .eps => a
  | a, b => .cat a b

/-- Alternation, collapsing the neutral element. -/
def ralt : Regex → Regex → Regex
  | .zero, b => b
  | a, .zero => a
  | a, b => .alt a b

/-- Brzozowski derivative of a regex by one character. -/
def deriv : Regex → Char → Regex
  | .zero, _ => .zero
  | .eps, _ => .zero
  | .chr p, c => if p c then .eps else .zero
  | .cat a b, c =>
      if nullable a then ralt (rcat (deriv a c) b) (deriv b c)
      else rcat (deriv a c) b
  | .alt a b, c => ralt (deriv a c) (deriv b c)
  | .star a, c => rcat (deriv a c) (.star a)

/-- Whether the regex matches some prefix of the string. -/
def matchesAt : Regex → List Char → Bool
  | r, [] => nullable r
  | r, c :: cs =>
      nullable r ||
        (match deriv r c with
         | .zero => false
         | d => matchesAt d cs)

/-- `re.search`: whether the regex matches a substring starting at any
position. -/
def reSearch (r : Regex) : List Char → Bool
  | [] => nullable r
  | c :: cs => matchesAt r (c :: cs) || reSearch r cs

/-- A literal character sequence. -/
def lit : List Char → Regex
  | [] => .eps
  | c :: cs => rcat (.chr (fun x => x == c)) (lit cs)

/-- A literal given as a string. -/
def litS (s : String) : Regex := lit s.data

/-- Python `.` outside DOTALL mode: any character except a newline. -/
def dotStar : Regex := .star (.chr (fun c => c != '\n'))

/-- Python `\w` (the strings evaluated here are ASCII). -/
def wordCls : Regex := .chr (fun c => c.isAlphanum || c == '_')

/-- Python `\s` (the strings evaluated here are ASCII). -/
def spaceCls : Regex :=
  .chr (fun c => c == ' ' || c == '\t' || c == '\n' || c == '\r' || c == '\x0b' || c == '\x0c')

/-- `r+` as `r r*`. -/
def plus (r : Regex) : Regex := .cat r (.star r)

/-- Concatenation of a list of regexes. -/
def seq (rs : List Regex) : Regex := rs.foldr rcat .eps

/-- The shared shape of the `r"';.*<tail>"` signature family. -/
def quotPat (tail : Regex) : Regex := seq [litS "';", dotStar, tail]

/-- A single-character signature tail given by code point. -/
def chOf (n : Nat) : Regex := .chr (fun c => c == Char.ofNat n)

/-- Code points of the `r"';.*\xNN"` entries of `suspicious_patterns`
(`backend/security.py` lines 60-194, in source order). -/
def sqlHexCodes : List Nat :=
  [0x00, 0x0a, 0x0d, 0x09, 0x20, 0x7f, 0xff] ++ (List.range 128).map (fun i => 128 + i)

/-- `SecurityManager.suspicious_patterns` (`backend/security.py` lines 26-195),
each entry translated from its regex literal.  The patterns are run with
`re.IGNORECASE` over already lower-cased text, so the two literals written
with capitals in the source (`localStorage`, `sessionStorage`) are embedded
lower-cased. -/
def suspicious_patterns : List Regex :=
  [ seq [litS "<script", dotStar, litS ">", dotStar, litS "</script>"],
    litS "javascript:",
    seq [litS "on", plus wordCls, .star spaceCls, litS "="],
    seq [litS "union", plus spaceCls, litS "select"],
    seq [litS "drop", plus spaceCls, litS "table"],
    seq [litS "delete", plus spaceCls, litS "from"],
    seq [litS "insert", plus spaceCls, litS "into"],
    seq [litS "update", plus spaceCls, litS "set"],
    seq [litS "exec", .star spaceCls, litS "("],
    seq [litS "eval", .star spaceCls, litS "("],
    litS "document.cookie",
    litS "localstorage",
    litS "sessionstorage",
    litS "../",
    litS "..\\",
    litS "/etc/passwd",
    litS "/proc/",
    litS "/sys/",
    litS "/dev/",
    litS "../../",
    seq [litS "union", dotStar, litS "select"],
    seq [litS "or", plus spaceCls, litS "1", .star spaceCls, litS "=", .star spaceCls, litS "1"],
    seq [litS "or", plus spaceCls, litS "true"],
    seq [litS "and", plus spaceCls, litS "1", .star spaceCls, litS "=", .star spaceCls, litS "1"],
    seq [litS "and", plus spaceCls, litS "true"],
    quotPat (litS "--"),
    quotPat (litS "#"),
    quotPat (litS "/*"),
    quotPat (litS "*/"),
    quotPat (litS "//"),
    quotPat (litS "\n"),
    quotPat (litS "\r"),
    quotPat (litS "\t") ]
  ++ sqlHexCodes.map (fun n => quotPat (chOf n))

/-- Python `str.lower` (Unicode-aware in Python; agrees with `Char.toLower`
on the ASCII strings evaluated here). -/
def pyLower (s : List Char) : List Char := s.map Char.toLower

/-- `SecurityManager._validate_string` (`backend/security.py` lines 245-262):
pattern scan over the lower-cased text, then the NUL/control-character check,
then the 10,000-character cap. -/
def validate_string (text : List Char) : Bool :=
  let text_lower := pyLower text
  if suspicious_patterns.any (fun p => reSearch p text_lower) then false
  else if text.contains '\x00'
      || text.any (fun c => c.toNat < 32 && !(c == '\t' || c == '\n' || c == '\r')) then false
  else if text.length > 10000 then false
  else true

example : validate_string "<script>alert(1)</script>".data = false := by decide

example : validate_string "'; DROP TABLE users; --".data = false := by decide

example : validate_string "Install 3 steel beams, 200mm x 400mm".data = true := by decide

/-! ## Python values and `validate_input` -/

/-- The Python values `SecurityManager.validate_input` can receive: strings,
dictionaries (keyed here by strings, as in the code's callers), lists, and
the remaining scalar kinds that fall through every `isinstance` test. -/
inductive PyValue where
  | vstr (s : List Char) : PyValue
  | vdict (entries : List (List Char × PyValue)) : PyValue
  | vlist (items : List PyValue) : PyValue
  | vint (n : Int) : PyValue
  | vbool (b : Bool) : PyValue
  | vnone : PyValue

mutual

/-- `SecurityManager.validate_input` (`backend/security.py` lines 235-243):
a string is checked by `_validate_string`, a dict by recursing over its
values (`data.values()` — the keys are never looked at), a list by recursing
over its items, and anything else returns `True`. -/
def validate_input : PyValue → Bool
  | .vstr s => validate_string s
  | .vdict entries => validateDictValues entries
  | .vlist items => validateListItems items
  | .vint _ => true
  | .vbool _ => true
  | .vnone => true

/-- `all(self.validate_input(v) for v in data.values())`. -/
def validateDictValues : List (List Char × PyValue) → Bool
  | [] => true
  | (_, v) :: rest => validate_input v && validateDictValues rest

/-- `all(self.validate_input(item) for item in data)`. -/
def validateListItems : List PyValue → Bool
  | [] => true
  | item :: rest => validate_input item && validateListItems rest

end

/-! ## Filename sanitization and the file-type check -/

/-- Fuel-driven worker for `removeAll`; every step consumes at least one
character, so fuel equal to the string length always suffices. -/
def removeAllFuel (pat : List Char) : Nat → List Char → List Char
  | 0, s => s
  | _ + 1, [] => []
  | fuel + 1, c :: cs =>
    if pat ≠ [] && pat.isPrefixOf (c :: cs) then removeAllFuel pat fuel ((c :: cs).drop pat.length)
    else c :: removeAllFuel pat fuel cs

/-- `re.sub(pat, '', s)` for a non-empty literal pattern: remove the
leftmost occurrence, continue after it, never rescan removed text. -/
def removeAll (pat : List Char) (s : List Char) : List Char :=
  removeAllFuel pat s.length s

/-- `SecurityManager.sanitize_filename` (`backend/security.py` lines
264-275): strip `../` then `..\`, drop the characters `<>:"|?*`, truncate to
255 characters. -/
def sanitize_filename (filename : List Char) : List Char :=
  let f1 := removeAll ('.' :: '.' :: '/' :: []) filename
  let f2 := removeAll ('.' :: '.' :: '\\' :: []) f1
  let f3 := f2.filter (fun c =>
    !(c == '<' || c == '>' || c == ':' || c == '"' || c == '|' || c == '?' || c == '*'))
  if f3.length > 255 then f3.take 255 else f3

/-- `filename.lower().split('.')[-1]`: the (lower-cased) text after the last
dot, the whole string when there is no dot. -/
def pyLastExt (filename : List Char) : List Char :=
  ((pyLower filename).splitOn '.').getLastD []

/-- `SecurityManager.validate_file_type` (`backend/security.py` lines
277-283).  A falsy filename (`None` or the empty string) is rejected. -/
def validate_file_type (filename : List Char) (allowed_extensions : List (List Char)) : Bool :=
  if filename = [] then false
  else allowed_extensions.contains (pyLastExt filename)

/-- The allow-list the upload middleware passes in
(`backend/middleware/security_middleware.py` line 113). -/
def allowed_extensions : List (List Char) :=
  ["pdf", "txt", "docx", "dwg", "dxf", "rvt", "rfa", "dgn", "skp"].map String.data

example : sanitize_filename "....//".data = "../".data := by decide

example : sanitize_filename "../../etc/passwd".data = "etc/passwd".data := by decide

example : validate_file_type "../../etc/passwd".data allowed_extensions = false := by decide

example : validate_file_type "a.pdf<".data allowed_extensions = false := by decide

example : validate_file_type (sanitize_filename "a.pdf<".data) allowed_extensions = true := by
  decide

/-! ## The rate limiter and the block set -/

/-- The two environment-configured numbers `SecurityManager.__init__` reads
(`RATE_LIMIT_REQUESTS`, default 100, and `RATE_LIMIT_WINDOW`, default 3600
seconds). -/
structure RateConfig where
  rate_limit_requests : Nat
  rate_limit_window : Int

/-- The env-default configuration. -/
def defaultRateConfig : RateConfig := ⟨100, 3600⟩

/-- The mutable state `SecurityManager` owns: `request_history` (per-identity
timestamp lists, absent identities read as `[]`) and `blocked_ips`. -/
structure SecState where
  request_history : String → List Int
  blocked_ips : List String

/-- The state of the freshly constructed `SecurityManager`. -/
def initialSecState : SecState := ⟨fun _ => [], []⟩

/-- `SecurityManager.is_ip_blocked` (`backend/security.py` line 204). -/
def is_ip_blocked (ip : String) (st : SecState) : Bool :=
  st.blocked_ips.contains ip

/-- `SecurityManager.block_ip` (`backend/security.py` line 208): `set.add`. -/
def block_ip (ip : String) (st : SecState) : SecState :=
  if st.blocked_ips.contains ip then st
  else { st with blocked_ips := ip :: st.blocked_ips }

/-- Point update of the history map. -/
def setHistory (ip : String) (l : List Int) (st : SecState) : SecState :=
  { st with request_history := fun j => if j = ip then l else st.request_history j }

/-- `SecurityManager.check_rate_limit` (`backend/security.py` lines 213-233):
purge entries with `current_time - req_time >= window`, then either block and
refuse (when the surviving count is at or above the limit) or append the
current instant and admit. -/
def check_rate_limit (cfg : RateConfig) (now : Int) (ip : String) (st : SecState) :
    Bool × SecState :=
  let purged := (st.request_history ip).filter (fun t => decide (now - t < cfg.rate_limit_window))
  let st := setHistory ip purged st
  if cfg.rate_limit_requests ≤ purged.length then
    (false, block_ip ip st)
  else
    (true, setHistory ip (purged ++ [now]) st)

/-- The state after `n` further calls of `check_rate_limit` for `ip`, all at
the same clock instant. -/
def afterChecks (cfg : RateConfig) (now : Int) (ip : String) (st : SecState) : Nat → SecState
  | 0 => st
  | n + 1 => (check_rate_limit cfg now ip (afterChecks cfg now ip st n)).2

/-! ## Tokens: `generate_secure_token` / `verify_token` over `jose.jwt` -/

/-- The default of the `SECURITY_SECRET_KEY` environment read
(`backend/security.py` line 21). -/
def secret_key : String := "your-super-secret-key-change-this"

/-- The claim set `generate_secure_token` builds; `aud` is optional because
`jose.jwt.decode` treats a token without an `aud` claim differently from one
that carries it. -/
structure JwtPayload where
  user_id : String
  exp : Int
  iat : Int
  iss : String
  aud : Option String
deriving DecidableEq, Repr

/-- A signed token, kept symbolic: the claim set plus the signing key
(`jose.jwt.encode(payload, key, algorithm="HS256")`); a signature check is a
key equality test. -/
structure SignedToken where
  payload : JwtPayload
  key : String
deriving DecidableEq, Repr

/-- `SecurityManager.generate_secure_token` (`backend/security.py` lines
285-294): `exp = now + expires_in`, `iat = now`, fixed issuer and audience,
signed with `secret_key`. -/
def generate_secure_token (user_id : String) (expires_in : Int) (now : Int) : SignedToken :=
  ⟨⟨user_id, now + expires_in, now, "BOQMate", some "BOQMate-Users"⟩, secret_key⟩

/-- How `jose.jwt.decode(token, key, algorithms=["HS256"])` ends. -/
inductive DecodeOutcome where
  | ok (p : JwtPayload) : DecodeOutcome
  /-- `ExpiredSignatureError` from `_validate_exp` (`exp < now`, leeway 0). -/
  | expiredSig : DecodeOutcome
  /-- `JWTClaimsError` from `_validate_aud`: with the default
  `verify_aud=True`, a token carrying an `aud` claim is rejected unless the
  caller passes a matching `audience`. -/
  | claimsErr : DecodeOutcome
  /-- `JWTError` wrapping a signature failure. -/
  | badSig : DecodeOutcome
deriving DecidableEq, Repr

/-- `jose.jwt.decode` on a (symbolically) well-formed token: signature
check, then `_validate_exp`, then `_validate_aud` — in python-jose's claim
validation order. -/
def jose_decode (tok : SignedToken) (key : String) (audience : Option String) (now : Int) :
    DecodeOutcome :=
  if tok.key ≠ key then .badSig
  else if tok.payload.exp < now then .expiredSig
  else
    match tok.payload.aud, audience with
    | none, none => .ok tok.payload
    | none, some _ => .claimsErr
    | some a, aud? => if aud? = some a then .ok tok.payload else .claimsErr

/-- How `SecurityManager.verify_token` ends, seen by its caller. -/
inductive VerifyOutcome where
  /-- The decoded payload is returned. -/
  | payload (p : JwtPayload) : VerifyOutcome
  /-- `None` after `except jwt.ExpiredSignatureError` (logged "Token expired"). -/
  | expiredNone : VerifyOutcome
  /-- An exception escapes `verify_token`: the second handler names
  `jwt.InvalidTokenError`, an attribute python-jose's `jwt` module does not
  define, so evaluating the handler raises `AttributeError` instead of
  catching the `JWTError`/`JWTClaimsError`. -/
  | attrError : VerifyOutcome
deriving DecidableEq, Repr

/-- `SecurityManager.verify_token` (`backend/security.py` lines 296-306):
`jwt.decode(token, self.secret_key, algorithms=["HS256"])` — no `audience`
argument — with the two `except` clauses of the source. -/
def verify_token (tok : SignedToken) (now : Int) : VerifyOutcome :=
  match jose_decode tok secret_key none now with
  | .ok p => .payload p
  | .expiredSig => .expiredNone
  | .claimsErr => .attrError
  | .badSig => .attrError

example : verify_token (generate_secure_token "user-42" 3600 1000) 1000 = .attrError := by decide

example : verify_token (generate_secure_token "user-42" 3600 1000) 4601 = .expiredNone := by
  decide

/-! ## The request pipeline (`backend/middleware/security_middleware.py`,
`backend/main.py`) -/

/-- One record of `SecurityManager.log_security_event`: the event type and
the client identity (every call site passes both; the remaining detail
fields — path, method, filename, previews — are elided, the claims observe
the count and the type of the events). -/
structure SEvent where
  event_type : String
  ip : String
deriving DecidableEq, Repr

/-- The `file` form field of the upload route: the filename (the empty
string models a missing/`None` filename, both falsy where the source tests
`if filename:` / `if not filename:`) and the bytes `await file.read()`
returns, one `Char` per byte. -/
structure UploadedFile where
  filename : String
  content : List Char
deriving DecidableEq, Repr

/-- The `Authorization` header: a well-formed `Bearer <token>` value carrying
a (symbolic) signed token, or a value not starting with `"Bearer "`. -/
inductive AuthHeaderV where
  | bearer (tok : SignedToken) : AuthHeaderV
  | malformed (s : String) : AuthHeaderV
deriving DecidableEq, Repr

/-- An inbound HTTP request, restricted to the fields the pipeline reads.
`body` is the request body after the source's `decode('utf-8',
errors='ignore')`. -/
structure Request where
  method : String
  path : String
  x_forwarded_for : Option String
  client_host : String
  authorization : Option AuthHeaderV
  query_params : List (String × String)
  body : List Char
  form_file : Option UploadedFile
  form_categories : Option (List Char)

/-- An HTTP response: status code, the `detail` body value, and headers. -/
structure Response where
  status_code : Nat
  detail : String
  headers : List (String × String)
deriving DecidableEq, Repr

/-- The process state a request runs against: the `SecurityManager`'s
mutable state plus the stream of logged security events. -/
structure PState where
  sec : SecState
  events : List SEvent

/-- `SecurityManager.log_security_event` (`backend/security.py` lines
324-331): append one record to the log. -/
def log_security_event (event_type : String) (ip : String) (st : PState) : PState :=
  { st with events := st.events ++ [⟨event_type, ip⟩] }

/-- `SecurityManager.get_client_ip` (`backend/security.py` lines 197-202):
first comma-separated entry of `X-Forwarded-For`, trimmed, when the header
is present and non-empty (`if forwarded_for:`); else the transport peer. -/
def get_client_ip (req : Request) : String :=
  match req.x_forwarded_for with
  | some fwd => if fwd = "" then req.client_host else ((fwd.splitOn ",").headD "").trim
  | none => req.client_host

/-- An ASGI-style application: request in, response and updated state out. -/
def App : Type := Request → PState → Response × PState

/-- A Starlette middleware wraps the inner application. -/
def Middleware : Type := App → App

/-- The seven fixed header assignments of `SecurityMiddleware.dispatch`
(`backend/middleware/security_middleware.py` lines 39-45). -/
def securityResponseHeaders : List (String × String) :=
  [("X-Content-Type-Options", "nosniff"),
   ("X-Frame-Options", "DENY"),
   ("X-XSS-Protection", "1; mode=block"),
   ("Strict-Transport-Security", "max-age=31536000; includeSubDomains"),
   ("Content-Security-Policy",
    "default-src 'self'; script-src 'self' 'unsafe-inline'; style-src 'self' 'unsafe-inline'; img-src 'self' data: https:; font-src 'self' https:;"),
   ("Referrer-Policy", "strict-origin-when-cross-origin"),
   ("Permissions-Policy", "geolocation=(), microphone=(), camera=()")]

/-- `response.headers[k] = v`: override an existing header, else append. -/
def setHeader (k v : String) (hs : List (String × String)) : List (String × String) :=
  if hs.any (fun p => p.1 == k) then hs.map (fun p => if p.1 == k then (k, v) else p)
  else hs ++ [(k, v)]

/-- The header block `SecurityMiddleware` adds to the response of its
`call_next`. -/
def addSecurityHeaders (r : Response) : Response :=
  { r with headers := securityResponseHeaders.foldl (fun hs kv => setHeader kv.1 kv.2 hs) r.headers }

/-- `SecurityMiddleware.dispatch` (`backend/middleware/security_middleware.py`
lines 11-47): block-list check (logged), rate limit (not logged), then the
inner app, whose response gets the security headers. -/
def SecurityMiddleware (cfg : RateConfig) (now : Int) (call_next : App) : App := fun req st =>
  let client_ip := get_client_ip req
  if is_ip_blocked client_ip st.sec then
    (⟨403, "Access denied", []⟩, log_security_event "BLOCKED_IP_ACCESS" client_ip st)
  else
    let rl := check_rate_limit cfg now client_ip st.sec
    let st := { st with sec := rl.2 }
    if !rl.1 then
      (⟨429, "Rate limit exceeded", []⟩, st)
    else
      let r := call_next req st
      (addSecurityHeaders r.1, r.2)

/-- First query parameter whose value fails `validate_input`, in order. -/
def findBadParam : List (String × String) → Option (String × String)
  | [] => none
  | (k, v) :: rest =>
    if !validate_input (.vstr v.data) then some (k, v) else findBadParam rest

/-- `InputValidationMiddleware.dispatch`
(`backend/middleware/security_middleware.py` lines 49-87): on POST/PUT/PATCH
a non-empty body failing `validate_input` rejects; then every query
parameter value is checked in order. -/
def InputValidationMiddleware (call_next : App) : App := fun req st =>
  if ["POST", "PUT", "PATCH"].contains req.method && !req.body.isEmpty
      && !validate_input (.vstr req.body) then
    (⟨400, "Invalid input detected", []⟩, log_security_event "MALICIOUS_INPUT" (get_client_ip req) st)
  else
    match findBadParam req.query_params with
    | some _ =>
      (⟨400, "Invalid query parameter", []⟩,
       log_security_event "MALICIOUS_QUERY_PARAM" (get_client_ip req) st)
    | none => call_next req st

/-- The upload middleware's size ceiling
(`backend/middleware/security_middleware.py` line 126, 50 MiB). -/
def max_upload_bytes : Nat := 50 * 1024 * 1024

/-- The `categories` form field check that closes
`FileUploadSecurityMiddleware.dispatch` (lines 150-160). -/
def uploadCategoriesCheck (call_next : App) (req : Request) (st : PState) : Response × PState :=
  match req.form_categories with
  | some cats =>
    if !validate_input (.vstr cats) then
      (⟨400, "Invalid categories parameter", []⟩,
       log_security_event "MALICIOUS_CATEGORIES" (get_client_ip req) st)
    else call_next req st
  | none => call_next req st

/-- `FileUploadSecurityMiddleware.dispatch`
(`backend/middleware/security_middleware.py` lines 89-170), on the upload
route only: warn (without rejecting) when sanitization would change the
filename, then reject on the extension check — run on the original
`filename` —, then on the 50 MiB size ceiling, then on the content scan,
then on the `categories` field.  The file-content check receives the bytes
after `decode('utf-8', errors='ignore')`, modelled by the byte sequence
itself. -/
def FileUploadSecurityMiddleware (call_next : App) : App := fun req st =>
  if req.path == "/api/generate-boq" && req.method == "POST" then
    let ip := get_client_ip req
    match req.form_file with
    | some file =>
      let st :=
        if file.filename ≠ "" && sanitize_filename file.filename.data ≠ file.filename.data then
          log_security_event "SUSPICIOUS_FILENAME" ip st
        else st
      if !validate_file_type file.filename.data allowed_extensions then
        (⟨400, "Invalid file type", []⟩, log_security_event "INVALID_FILE_TYPE" ip st)
      else if max_upload_bytes < file.content.length then
        (⟨413, "File too large", []⟩, log_security_event "FILE_TOO_LARGE" ip st)
      else if !validate_input (.vstr file.content) then
        (⟨400, "File content validation failed", []⟩,
         log_security_event "MALICIOUS_FILE_CONTENT" ip st)
      else uploadCategoriesCheck call_next req st
    | none => uploadCategoriesCheck call_next req st
  else call_next req st

/-- The public path allow-list of `AuthenticationMiddleware.dispatch`
(line 175). -/
def public_paths : List String := ["/", "/health", "/api/categories"]

/-- The 401 returned when the `Authorization` header is absent or does not
start with `"Bearer "`. -/
def missingAuthResponse (req : Request) (st : PState) : Response × PState :=
  (⟨401, "Missing or invalid authorization header", []⟩,
   log_security_event "MISSING_AUTH" (get_client_ip req) st)

/-- `AuthenticationMiddleware.dispatch`
(`backend/middleware/security_middleware.py` lines 172-211): public paths
pass through; otherwise a bearer token is required and `verify_token` is
consulted.  A `VerifyOutcome.attrError` escapes the middleware and becomes
Starlette's generic 500 (no security event). -/
def AuthenticationMiddleware (now : Int) (call_next : App) : App := fun req st =>
  if public_paths.contains req.path then call_next req st
  else
    match req.authorization with
    | some (.bearer tok) =>
      match verify_token tok now with
      | .payload _ => call_next req st
      | .expiredNone =>
        (⟨401, "Invalid or expired token", []⟩,
         log_security_event "INVALID_TOKEN" (get_client_ip req) st)
      | .attrError => (⟨500, "Internal Server Error", []⟩, st)
    | some (.malformed _) => missingAuthResponse req st
    | none => missingAuthResponse req st

/-- `fastapi.middleware.cors.CORSMiddleware` passes the simple (non-preflight)
requests modelled here straight through. -/
def CORSMiddleware (call_next : App) : App := call_next

/-- `Starlette.add_middleware`: `self.user_middleware.insert(0, …)` — the
most recently added middleware stands at the head of the list. -/
def add_middleware (m : Middleware) (stack : List Middleware) : List Middleware := m :: stack

/-- The `user_middleware` list after the five `app.add_middleware(...)` calls
of `backend/main.py` lines 14-26, applied in source order: Security, then
InputValidation, then FileUpload, then Authentication, then CORS. -/
def appMiddlewareStack (cfg : RateConfig) (now : Int) : List Middleware :=
  add_middleware CORSMiddleware
    (add_middleware (AuthenticationMiddleware now)
      (add_middleware FileUploadSecurityMiddleware
        (add_middleware InputValidationMiddleware
          (add_middleware (SecurityMiddleware cfg now) []))))

/-- `Starlette.build_middleware_stack`: wrap the endpoint so that the head of
`user_middleware` — the middleware added last — is outermost and runs
first. -/
def buildApp (mws : List Middleware) (endpoint : App) : App :=
  mws.foldr (fun m inner => m inner) endpoint

/-- The whole application of `backend/main.py` around a business endpoint. -/
def runApp (cfg : RateConfig) (now : Int) (endpoint : App) : App :=
  buildApp (appMiddlewareStack cfg now) endpoint

/-- The root handler (`backend/main.py` lines 31-33), the stand-in business
endpoint of the closed theorems. -/
def rootEndpoint : App := fun _ st => (⟨200, "BOQMate API is running", []⟩, st)

/-! ## Rate limiter lemmas -/

lemma filter_window_replicate (now w : Int) (hw : 0 < w) (n : Nat) :
    (List.replicate n now).filter (fun t => decide (now - t < w)) = List.replicate n now := by
  apply List.filter_eq_self.mpr
  intro a ha
  have h := List.eq_of_mem_replicate ha
  subst h
  rw [decide_eq_true_eq]
  omega

lemma afterChecks_spec (cfg : RateConfig) (now : Int) (ip : String)
    (hw : 0 < cfg.rate_limit_window) :
    ∀ k, k ≤ cfg.rate_limit_requests →
      (afterChecks cfg now ip initialSecState k).request_history ip = List.replicate k now
      ∧ (afterChecks cfg now ip initialSecState k).blocked_ips = []
  | 0, _ => ⟨rfl, rfl⟩
  | k + 1, hle => by
    obtain ⟨hh, hb⟩ := afterChecks_spec cfg now ip hw k (Nat.le_of_succ_le hle)
    have hnotfull : ¬ cfg.rate_limit_requests ≤ k := by omega
    show ((check_rate_limit cfg now ip (afterChecks cfg now ip initialSecState k)).2).request_history ip = _
      ∧ ((check_rate_limit cfg now ip (afterChecks cfg now ip initialSecState k)).2).blocked_ips = _
    simp only [check_rate_limit, hh, filter_window_replicate now _ hw k,
      List.length_replicate, if_neg hnotfull, setHistory]
    refine ⟨?_, hb⟩
    simp [List.replicate_succ']

lemma check_rate_limit_true_of_room (cfg : RateConfig) (now : Int) (ip : String)
    (st : SecState)
    (h : ((st.request_history ip).filter
        (fun t => decide (now - t < cfg.rate_limit_window))).length < cfg.rate_limit_requests) :
    (check_rate_limit cfg now ip st).1 = true := by
  simp only [check_rate_limit, if_neg (Nat.not_le_of_lt h)]

lemma check_rate_limit_history_le (cfg : RateConfig) (now : Int) (ip j : String)
    (st : SecState)
    (h : (st.request_history j).length ≤ cfg.rate_limit_requests) :
    (((check_rate_limit cfg now ip st).2).request_history j).length ≤ cfg.rate_limit_requests := by
  have hfle : ((st.request_history ip).filter
      (fun t => decide (now - t < cfg.rate_limit_window))).length
      ≤ (st.request_history ip).length := List.length_filter_le _ _
  by_cases hfull : cfg.rate_limit_requests ≤ ((st.request_history ip).filter
      (fun t => decide (now - t < cfg.rate_limit_window))).length
  · by_cases hj : j = ip
    · subst hj
      simp only [check_rate_limit, if_pos hfull, block_ip, setHistory]
      split <;> simp <;> omega
    · simp only [check_rate_limit, if_pos hfull, block_ip, setHistory]
      split <;> simp [hj, h]
  · by_cases hj : j = ip
    · subst hj
      have hlt : ((st.request_history j).filter
          (fun t => decide (now - t < cfg.rate_limit_window))).length
          < cfg.rate_limit_requests := Nat.lt_of_not_le hfull
      simp [check_rate_limit, setHistory, if_neg hfull]
      omega
    · simp [check_rate_limit, if_neg hfull, setHistory, hj, h]

/-- C1: with a fixed clock and a positive window, an identity starting from
the empty history is admitted on each of its first `rate_limit_requests`
calls of `check_rate_limit`; the next call within the same window is refused
and puts the identity on the block list; and the stored timestamp count for
the identity never exceeds `rate_limit_requests`. -/
theorem c1_rate_limit_boundary (cfg : RateConfig) (ip : String) (now : Int)
    (hw : 0 < cfg.rate_limit_window) :
    (∀ k, k < cfg.rate_limit_requests →
        (check_rate_limit cfg now ip (afterChecks cfg now ip initialSecState k)).1 = true)
    ∧ (check_rate_limit cfg now ip
        (afterChecks cfg now ip initialSecState cfg.rate_limit_requests)).1 = false
    ∧ is_ip_blocked ip
        (check_rate_limit cfg now ip
          (afterChecks cfg now ip initialSecState cfg.rate_limit_requests)).2 = true
    ∧ (∀ n, ((afterChecks cfg now ip initialSecState n).request_history ip).length
        ≤ cfg.rate_limit_requests) := by
  refine ⟨?_, ?_, ?_, ?_⟩
  · intro k hk
    obtain ⟨hh, _⟩ := afterChecks_spec cfg now ip hw k (Nat.le_of_lt hk)
    apply check_rate_limit_true_of_room
    rw [hh, filter_window_replicate now _ hw k, List.length_replicate]
    exact hk
  · obtain ⟨hh, _⟩ := afterChecks_spec cfg now ip hw cfg.rate_limit_requests le_rfl
    simp only [check_rate_limit, hh, filter_window_replicate now _ hw,
      List.length_replicate, if_pos le_rfl]
  · obtain ⟨hh, hb⟩ := afterChecks_spec cfg now ip hw cfg.rate_limit_requests le_rfl
    simp only [check_rate_limit, hh, filter_window_replicate now _ hw,
      List.length_replicate, if_pos le_rfl, is_ip_blocked, block_ip, setHistory, hb]
    simp
  · intro n
    induction n with
    | zero => simp [afterChecks, initialSecState]
    | succ m ih => exact check_rate_limit_history_le cfg now ip ip _ ih

/-- Witness for C1 at a concrete configuration, identity and clock. -/
theorem c1_rate_limit_boundary_witness :
    (0 : Int) < (RateConfig.mk 3 5).rate_limit_window
    ∧ ((∀ k, k < (RateConfig.mk 3 5).rate_limit_requests →
        (check_rate_limit (RateConfig.mk 3 5) 100 "1.2.3.4"
          (afterChecks (RateConfig.mk 3 5) 100 "1.2.3.4" initialSecState k)).1 = true)
    ∧ (check_rate_limit (RateConfig.mk 3 5) 100 "1.2.3.4"
        (afterChecks (RateConfig.mk 3 5) 100 "1.2.3.4" initialSecState
          (RateConfig.mk 3 5).rate_limit_requests)).1 = false
    ∧ is_ip_blocked "1.2.3.4"
        (check_rate_limit (RateConfig.mk 3 5) 100 "1.2.3.4"
          (afterChecks (RateConfig.mk 3 5) 100 "1.2.3.4" initialSecState
            (RateConfig.mk 3 5).rate_limit_requests)).2 = true
    ∧ (∀ n, ((afterChecks (RateConfig.mk 3 5) 100 "1.2.3.4" initialSecState n).request_history
          "1.2.3.4").length ≤ (RateConfig.mk 3 5).rate_limit_requests)) :=
  ⟨by decide, c1_rate_limit_boundary (RateConfig.mk 3 5) "1.2.3.4" 100 (by decide)⟩

/-- C8: once every stored timestamp of an identity is at least a full window
old, the next `check_rate_limit` call admits it again (given a limit of at
least one); after any check every timestamp stored for the checked identity
is within the window of the current time; and a blocked identity stays
blocked: `check_rate_limit` never removes block-list entries, and
`SecurityMiddleware` answers 403 for a blocked identity at every clock
value. -/
theorem c8_window_recovery_and_purge (cfg : RateConfig) (now : Int) (ip : String)
    (st : SecState)
    (hmax : 1 ≤ cfg.rate_limit_requests)
    (hw : 0 < cfg.rate_limit_window)
    (hold : ∀ t ∈ st.request_history ip, cfg.rate_limit_window ≤ now - t) :
    (check_rate_limit cfg now ip st).1 = true
    ∧ (∀ st2 : SecState, ∀ t ∈ ((check_rate_limit cfg now ip st2).2).request_history ip,
        now - t < cfg.rate_limit_window)
    ∧ (∀ (ip2 : String) (st2 : SecState), is_ip_blocked ip2 st2 = true →
        is_ip_blocked ip2 (check_rate_limit cfg now ip st2).2 = true)
    ∧ (∀ (call_next : App) (req : Request) (ps : PState),
        is_ip_blocked (get_client_ip req) ps.sec = true →
        (SecurityMiddleware cfg now call_next req ps).1 = ⟨403, "Access denied", []⟩) := by
  refine ⟨?_, ?_, ?_, ?_⟩
  · have hnil : (st.request_history ip).filter
        (fun t => decide (now - t < cfg.rate_limit_window)) = [] := by
      apply List.filter_eq_nil_iff.mpr
      intro a ha
      have := hold a ha
      simp only [decide_eq_true_eq]
      omega
    apply check_rate_limit_true_of_room
    rw [hnil]
    simpa using hmax
  · intro st2 t ht
    by_cases hfull : cfg.rate_limit_requests ≤ ((st2.request_history ip).filter
        (fun t => decide (now - t < cfg.rate_limit_window))).length
    · simp only [check_rate_limit, if_pos hfull, block_ip, setHistory] at ht
      have ht' : t ∈ (st2.request_history ip).filter
          (fun t => decide (now - t < cfg.rate_limit_window)) := by
        revert ht
        split <;> simp
      have := List.of_mem_filter ht'
      simpa using this
    · simp [check_rate_limit, if_neg hfull, setHistory, List.mem_filter] at ht
      rcases ht with ⟨-, hp⟩ | ht
      · omega
      · subst ht
        omega
  · intro ip2 st2 hblk
    simp only [is_ip_blocked] at hblk
    simp only [check_rate_limit, is_ip_blocked, block_ip, setHistory]
    split
    · split
      · simpa using hblk
      · have hmem : ip2 ∈ st2.blocked_ips := by simpa using hblk
        simp [hmem]
    · simpa using hblk
  · intro call_next req ps hblk
    simp only [SecurityMiddleware, if_pos hblk]

/-- Witness for C8: limit 2, window 10, an identity whose one stored
timestamp is 50 at clock 100. -/
theorem c8_window_recovery_and_purge_witness :
    (1 ≤ (RateConfig.mk 2 10).rate_limit_requests
      ∧ (0 : Int) < (RateConfig.mk 2 10).rate_limit_window
      ∧ ∀ t ∈ (SecState.mk (fun j => if j = "9.9.9.9" then [50] else []) []).request_history
          "9.9.9.9", (RateConfig.mk 2 10).rate_limit_window ≤ 100 - t)
    ∧ (check_rate_limit (RateConfig.mk 2 10) 100 "9.9.9.9"
        (SecState.mk (fun j => if j = "9.9.9.9" then [50] else []) [])).1 = true := by
  have h := c8_window_recovery_and_purge (RateConfig.mk 2 10) 100 "9.9.9.9"
    (SecState.mk (fun j => if j = "9.9.9.9" then [50] else []) [])
    (by decide) (by decide)
    (by intro t ht; simp at ht; subst ht; decide)
  exact ⟨⟨by decide, by decide, by intro t ht; simp at ht; subst ht; decide⟩, h.1⟩

/-- C7: the string validator rejects the two literal attack strings, accepts
the benign construction-text literal, and rejects every string containing a
NUL byte, every string containing a control character (code point below 32)
other than tab, newline or carriage return, and every string longer than
10,000 characters. -/
lemma validate_string_eq_and (s : List Char) :
    validate_string s =
      (!(suspicious_patterns.any fun p => reSearch p (pyLower s))
        && !(s.contains '\x00'
          || s.any fun c => decide (c.toNat < 32) && !(c == '\t' || c == '\n' || c == '\r'))
        && !(decide (s.length > 10000))) := by
  unfold validate_string
  dsimp only
  by_cases h3 : s.length > 10000 <;>
  cases h1 : (suspicious_patterns.any fun p => reSearch p (pyLower s)) <;>
  cases h2 : (s.contains '\x00'
      || s.any fun c => decide (c.toNat < 32) && !(c == '\t' || c == '\n' || c == '\r')) <;>
  simp [h1, h2, h3]

theorem c7_validate_string_signatures :
    validate_string "<script>alert(1)</script>".data = false
    ∧ validate_string "'; DROP TABLE users; --".data = false
    ∧ validate_string "Install 3 steel beams, 200mm x 400mm".data = true
    ∧ (∀ s : List Char, '\x00' ∈ s → validate_string s = false)
    ∧ (∀ (s : List Char) (c : Char), c ∈ s → c.toNat < 32 →
        c ≠ '\t' → c ≠ '\n' → c ≠ '\r' → validate_string s = false)
    ∧ (∀ s : List Char, 10000 < s.length → validate_string s = false) := by
  refine ⟨by decide, by decide, by decide, ?_, ?_, ?_⟩
  · intro s hs
    rw [validate_string_eq_and]
    simp
    intro _ h _
    exact absurd hs h
  · intro s c hcs h32 ht hn hr
    rw [validate_string_eq_and]
    simp
    intro _ _ h
    exact absurd (h c hcs h32 ht hn) hr
  · intro s hlen
    rw [validate_string_eq_and]
    simp [hlen]

lemma validateDictValues_eq_all (entries : List (List Char × PyValue)) :
    validateDictValues entries = (entries.map Prod.snd).all validate_input := by
  induction entries with
  | nil => rfl
  | cons kv rest ih => simp [validateDictValues, ih]

/-- C9: `validate_input` looks only at a dict's values, never at its keys —
here shown by the dict check being exactly the conjunction over the mapped
values, and by a dict whose key is a malicious string but whose value is
benign passing — and every non-string, non-dict, non-list value is reported
safe. -/
theorem c9_validate_input_ignores_keys :
    (∀ entries : List (List Char × PyValue),
        validate_input (.vdict entries) = (entries.map Prod.snd).all validate_input)
    ∧ validate_input (.vdict [("<script>alert(1)</script>".data, .vstr "ok".data)]) = true
    ∧ (∀ n : Int, validate_input (.vint n) = true)
    ∧ (∀ b : Bool, validate_input (.vbool b) = true)
    ∧ validate_input PyValue.vnone = true := by
  refine ⟨?_, by decide, fun n => rfl, fun b => rfl, rfl⟩
  intro entries
  simp [validate_input, validateDictValues_eq_all]

/-- C10: `sanitize_filename` strips `../` in a single non-repeated pass: on
`"....//"` the output is `"../"`, which still contains a traversal sequence,
and a second application changes the result again — the function is not
idempotent. -/
theorem c10_sanitize_filename_not_idempotent :
    sanitize_filename "....//".data = "../".data
    ∧ List.IsInfix "../".data (sanitize_filename "....//".data)
    ∧ sanitize_filename (sanitize_filename "....//".data) ≠ sanitize_filename "....//".data := by
  exact ⟨by decide, by decide, by decide⟩

/-- C5 (recording the code bug): verifying a token immediately after issuing
it does not return the subject — `jose.jwt.decode` is called without an
`audience` although the token carries an `aud` claim, so it raises
`JWTClaimsError`, and the `except jwt.InvalidTokenError` clause names an
attribute python-jose does not define, so an `AttributeError` escapes
`verify_token`.  Verifying after the clock passes the ttl does yield the
expired rejection (the expiry check precedes the audience check). -/
theorem c5_token_roundtrip_failure :
    verify_token (generate_secure_token "user-42" 3600 1000) 1000 = VerifyOutcome.attrError
    ∧ (∀ p : JwtPayload,
        verify_token (generate_secure_token "user-42" 3600 1000) 1000 ≠ VerifyOutcome.payload p)
    ∧ verify_token (generate_secure_token "user-42" 3600 1000) 4601 = VerifyOutcome.expiredNone := by
  refine ⟨by decide, ?_, by decide⟩
  intro p h
  have h0 : verify_token (generate_secure_token "user-42" 3600 1000) 1000 =
      VerifyOutcome.attrError := by decide
  rw [h0] at h
  simp at h

/-! ## Concrete requests and states for the pipeline theorems -/

/-- The empty process state: fresh `SecurityManager`, empty event log. -/
def pstate0 : PState := ⟨initialSecState, []⟩

/-- A request to the upload route carrying a file named `plan.pdf` with the
given content and the given `Authorization` header. -/
def uploadRequest (auth : Option AuthHeaderV) (content : List Char) : Request :=
  { method := "POST", path := "/api/generate-boq", x_forwarded_for := none,
    client_host := "8.8.8.8", authorization := auth, query_params := [],
    body := [], form_file := some ⟨"plan.pdf", content⟩, form_categories := none }

/-- A 60 MiB body, the spec's end-to-end test size. -/
def hugeContent : List Char := List.replicate (60 * 1024 * 1024) 'x'

/-- A token `verify_token` accepts at clock 100: signed with `secret_key`,
unexpired, and carrying no `aud` claim (`jose.jwt.decode` called without an
`audience` rejects any token that carries one — see C5). -/
def passingToken : SignedToken := ⟨⟨"user-42", 2000, 0, "BOQMate", none⟩, secret_key⟩

/-- A plain GET request to the public root path. -/
def rootRequest : Request :=
  { method := "GET", path := "/", x_forwarded_for := none, client_host := "4.4.4.4",
    authorization := none, query_params := [], body := [], form_file := none,
    form_categories := none }

/-- C2 fails on the code: the oversize upload with no bearer token is
answered 401 by the authentication middleware — which, having been
registered after the upload middleware, wraps it and runs first — so no
`FILE_TOO_LARGE` event and no 413 precede the token check. -/
theorem c2_counterexample :
    (runApp defaultRateConfig 100 rootEndpoint (uploadRequest none hugeContent) pstate0).1
      = ⟨401, "Missing or invalid authorization header", []⟩
    ∧ (runApp defaultRateConfig 100 rootEndpoint (uploadRequest none hugeContent) pstate0).2.events
      = [⟨"MISSING_AUTH", "8.8.8.8"⟩] :=
  ⟨rfl, rfl⟩

lemma upload_missing_auth (endpoint : App) (st : PState) (now : Int) (content : List Char) :
    runApp defaultRateConfig now endpoint (uploadRequest none content) st
      = (⟨401, "Missing or invalid authorization header", []⟩,
         { st with events := st.events ++ [⟨"MISSING_AUTH", "8.8.8.8"⟩] }) := by
  rfl

lemma upload_413_of_valid_token (endpoint : App) (st : PState) (now : Int)
    (tok : SignedToken) (content : List Char)
    (hkey : tok.key = secret_key) (haud : tok.payload.aud = none)
    (hexp : ¬ tok.payload.exp < now)
    (hsize : max_upload_bytes < content.length) :
    runApp defaultRateConfig now endpoint (uploadRequest (some (.bearer tok)) content) st
      = (⟨413, "File too large", []⟩,
         { st with events := st.events ++ [⟨"FILE_TOO_LARGE", "8.8.8.8"⟩] }) := by
  have hsan : sanitize_filename "plan.pdf".data = "plan.pdf".data := by decide
  have hft : validate_file_type "plan.pdf".data allowed_extensions = true := by decide
  simp [runApp, buildApp, appMiddlewareStack, add_middleware, CORSMiddleware,
    AuthenticationMiddleware, public_paths, uploadRequest, verify_token, jose_decode,
    hkey, haud, hexp, FileUploadSecurityMiddleware, hsan, hft, hsize,
    get_client_ip, log_security_event]

/-- C2 (amended): because `add_middleware` inserts at the head of the list
and the head is built outermost, the stages run in the reverse of the
registration order — token authentication first, then upload policy, then
input validation, then block-list check and rate limit, then the handler —
each rejecting stage stopping all later ones.  An oversize upload is
answered 413 with exactly one `FILE_TOO_LARGE` event only when it carries a
token that verifies; with no token it is answered 401 before any upload
check, independently of the handler in both cases. -/
theorem c2_stage_order_amended :
    (∀ (cfg : RateConfig) (now : Int) (endpoint : App),
        runApp cfg now endpoint =
          CORSMiddleware (AuthenticationMiddleware now
            (FileUploadSecurityMiddleware (InputValidationMiddleware
              (SecurityMiddleware cfg now endpoint)))))
    ∧ (∀ (endpoint : App) (st : PState) (now : Int) (content : List Char),
        runApp defaultRateConfig now endpoint (uploadRequest none content) st
          = (⟨401, "Missing or invalid authorization header", []⟩,
             { st with events := st.events ++ [⟨"MISSING_AUTH", "8.8.8.8"⟩] }))
    ∧ (∀ (endpoint : App) (st : PState) (now : Int) (tok : SignedToken) (content : List Char),
        tok.key = secret_key → tok.payload.aud = none → ¬ tok.payload.exp < now →
        max_upload_bytes < content.length →
        runApp defaultRateConfig now endpoint (uploadRequest (some (.bearer tok)) content) st
          = (⟨413, "File too large", []⟩,
             { st with events := st.events ++ [⟨"FILE_TOO_LARGE", "8.8.8.8"⟩] }))
    ∧ runApp defaultRateConfig 100 rootEndpoint
        (uploadRequest (some (.bearer passingToken)) hugeContent) pstate0
        = (⟨413, "File too large", []⟩,
           ⟨initialSecState, [⟨"FILE_TOO_LARGE", "8.8.8.8"⟩]⟩) := by
  refine ⟨fun cfg now endpoint => rfl, fun e st now c => upload_missing_auth e st now c,
    fun e st now tok c hk ha he hs => upload_413_of_valid_token e st now tok c hk ha he hs, ?_⟩
  have hlen : max_upload_bytes < hugeContent.length := by
    show max_upload_bytes < (List.replicate (60 * 1024 * 1024) 'x').length
    rw [List.length_replicate]
    decide
  have h := upload_413_of_valid_token rootEndpoint pstate0 100 passingToken hugeContent
    rfl rfl (by decide) hlen
  simpa [pstate0] using h

/-- A state in which the root request's client `4.4.4.4` is on the block
list. -/
def blockedState : PState := ⟨⟨fun _ => [], ["4.4.4.4"]⟩, []⟩

/-- C3 fails on the code: the 403 sent to a blocked client carries no
headers at all — the security headers are added only after `call_next`
returns inside `SecurityMiddleware`, which this rejection never reaches. -/
theorem c3_counterexample :
    (runApp defaultRateConfig 100 rootEndpoint rootRequest blockedState).1
      = ⟨403, "Access denied", []⟩
    ∧ ((runApp defaultRateConfig 100 rootEndpoint rootRequest blockedState).1.headers.lookup
        "X-Content-Type-Options") = none :=
  ⟨rfl, rfl⟩

/-- C3 (amended): the security headers are attached exactly to the responses
`SecurityMiddleware` obtains from its inner application (requests that pass
the block and rate checks, the innermost stages of the stack); every
middleware rejection — its own 403 and 429 as well as the 400/401/413 of the
outer middlewares, which never reach it — is returned without them.  A
request that passes everything gets exactly the seven fixed headers. -/
theorem c3_headers_amended :
    (∀ (cfg : RateConfig) (now : Int) (call_next : App) (req : Request) (ps : PState),
        is_ip_blocked (get_client_ip req) ps.sec = true →
        (SecurityMiddleware cfg now call_next req ps).1.headers = [])
    ∧ (∀ (cfg : RateConfig) (now : Int) (call_next : App) (req : Request) (ps : PState),
        is_ip_blocked (get_client_ip req) ps.sec = false →
        (check_rate_limit cfg now (get_client_ip req) ps.sec).1 = false →
        (SecurityMiddleware cfg now call_next req ps).1.headers = [])
    ∧ (∀ (cfg : RateConfig) (now : Int) (call_next : App) (req : Request) (ps : PState),
        is_ip_blocked (get_client_ip req) ps.sec = false →
        (check_rate_limit cfg now (get_client_ip req) ps.sec).1 = true →
        (SecurityMiddleware cfg now call_next req ps).1 =
          addSecurityHeaders (call_next req
            { ps with sec := (check_rate_limit cfg now (get_client_ip req) ps.sec).2 }).1)
    ∧ (∀ r : Response, r.headers = [] → (addSecurityHeaders r).headers = securityResponseHeaders)
    ∧ (∀ (now : Int) (call_next : App) (req : Request) (ps : PState),
        public_paths.contains req.path = false → req.authorization = none →
        (AuthenticationMiddleware now call_next req ps).1.headers = [])
    ∧ (runApp defaultRateConfig 100 rootEndpoint rootRequest pstate0).1
        = ⟨200, "BOQMate API is running", securityResponseHeaders⟩ := by
  refine ⟨?_, ?_, ?_, ?_, ?_, by decide⟩
  · intro cfg now call_next req ps hblk
    simp [SecurityMiddleware, hblk]
  · intro cfg now call_next req ps hblk hrl
    simp [SecurityMiddleware, hblk, hrl]
  · intro cfg now call_next req ps hblk hrl
    simp [SecurityMiddleware, hblk, hrl]
  · intro r hr
    simp [addSecurityHeaders, securityResponseHeaders, setHeader, hr]
  · intro now call_next req ps hpub hauth
    have hpub2 : req.path ∉ public_paths := by simpa using hpub
    simp [AuthenticationMiddleware, hpub2, hauth, missingAuthResponse]

/-- A state where `7.7.7.7` has one stored timestamp inside the window. -/
def exhaustedState : PState := ⟨⟨fun j => if j = "7.7.7.7" then [90] else [], []⟩, []⟩

/-- A plain GET request to the public root path from `7.7.7.7`. -/
def exhaustedRequest : Request :=
  { method := "GET", path := "/", x_forwarded_for := none, client_host := "7.7.7.7",
    authorization := none, query_params := [], body := [], form_file := none,
    form_categories := none }

/-- C4 fails on the code: the rate-limit 429 writes no SecurityEvent at all
(`check_rate_limit` only calls `block_ip`, which emits a plain log line, and
the middleware returns the 429 without logging). -/
theorem c4_counterexample :
    (runApp ⟨1, 3600⟩ 100 rootEndpoint exhaustedRequest exhaustedState).1
      = ⟨429, "Rate limit exceeded", []⟩
    ∧ (runApp ⟨1, 3600⟩ 100 rootEndpoint exhaustedRequest exhaustedState).2.events = [] :=
  ⟨rfl, rfl⟩

/-- C4 (amended): every rejecting transition except the rate-limit one
writes exactly one SecurityEvent before its response, and each rejection
body carries only the generic category message; the rate-limit 429 writes
none. -/
theorem c4_one_event_per_rejection_amended :
    (∀ (cfg : RateConfig) (now : Int) (call_next : App) (req : Request) (ps : PState),
        is_ip_blocked (get_client_ip req) ps.sec = true →
        SecurityMiddleware cfg now call_next req ps
          = (⟨403, "Access denied", []⟩,
             { ps with events := ps.events ++ [⟨"BLOCKED_IP_ACCESS", get_client_ip req⟩] }))
    ∧ (∀ (cfg : RateConfig) (now : Int) (call_next : App) (req : Request) (ps : PState),
        is_ip_blocked (get_client_ip req) ps.sec = false →
        (check_rate_limit cfg now (get_client_ip req) ps.sec).1 = false →
        SecurityMiddleware cfg now call_next req ps
          = (⟨429, "Rate limit exceeded", []⟩,
             { ps with sec := (check_rate_limit cfg now (get_client_ip req) ps.sec).2 }))
    ∧ (∀ (now : Int) (call_next : App) (req : Request) (ps : PState),
        public_paths.contains req.path = false → req.authorization = none →
        AuthenticationMiddleware now call_next req ps
          = (⟨401, "Missing or invalid authorization header", []⟩,
             { ps with events := ps.events ++ [⟨"MISSING_AUTH", get_client_ip req⟩] }))
    ∧ (∀ (now : Int) (call_next : App) (req : Request) (ps : PState) (tok : SignedToken),
        public_paths.contains req.path = false →
        req.authorization = some (.bearer tok) →
        verify_token tok now = .expiredNone →
        AuthenticationMiddleware now call_next req ps
          = (⟨401, "Invalid or expired token", []⟩,
             { ps with events := ps.events ++ [⟨"INVALID_TOKEN", get_client_ip req⟩] }))
    ∧ (∀ (call_next : App) (req : Request) (ps : PState),
        ["POST", "PUT", "PATCH"].contains req.method = true →
        req.body ≠ [] → validate_input (.vstr req.body) = false →
        InputValidationMiddleware call_next req ps
          = (⟨400, "Invalid input detected", []⟩,
             { ps with events := ps.events ++ [⟨"MALICIOUS_INPUT", get_client_ip req⟩] }))
    ∧ (∀ (call_next : App) (req : Request) (ps : PState) (file : UploadedFile),
        req.path = "/api/generate-boq" → req.method = "POST" →
        req.form_file = some file →
        sanitize_filename file.filename.data = file.filename.data →
        validate_file_type file.filename.data allowed_extensions = false →
        FileUploadSecurityMiddleware call_next req ps
          = (⟨400, "Invalid file type", []⟩,
             { ps with events := ps.events ++ [⟨"INVALID_FILE_TYPE", get_client_ip req⟩] }))
    ∧ (∀ (call_next : App) (req : Request) (ps : PState) (file : UploadedFile),
        req.path = "/api/generate-boq" → req.method = "POST" →
        req.form_file = some file →
        sanitize_filename file.filename.data = file.filename.data →
        validate_file_type file.filename.data allowed_extensions = true →
        max_upload_bytes < file.content.length →
        FileUploadSecurityMiddleware call_next req ps
          = (⟨413, "File too large", []⟩,
             { ps with events := ps.events ++ [⟨"FILE_TOO_LARGE", get_client_ip req⟩] })) := by
  refine ⟨?_, ?_, ?_, ?_, ?_, ?_, ?_⟩
  · intro cfg now call_next req ps hblk
    simp [SecurityMiddleware, hblk, log_security_event]
  · intro cfg now call_next req ps hblk hrl
    simp [SecurityMiddleware, hblk, hrl]
  · intro now call_next req ps hpub hauth
    have hpub2 : req.path ∉ public_paths := by simpa using hpub
    simp [AuthenticationMiddleware, hpub2, hauth, missingAuthResponse, log_security_event]
  · intro now call_next req ps tok hpub hauth hver
    have hpub2 : req.path ∉ public_paths := by simpa using hpub
    simp [AuthenticationMiddleware, hpub2, hauth, hver, log_security_event]
  · intro call_next req ps hm hb hv
    have hm2 : req.method = "POST" ∨ req.method = "PUT" ∨ req.method = "PATCH" := by
      simpa using hm
    have hb2 : req.body.isEmpty = false := by simpa using hb
    rcases hm2 with h | h | h <;>
      simp [InputValidationMiddleware, h, hb2, hv, log_security_event]
  · intro call_next req ps file hp hm hf hsan hft
    simp [FileUploadSecurityMiddleware, hp, hm, hf, hsan, hft, log_security_event]
  · intro call_next req ps file hp hm hf hsan hft hsize
    simp [FileUploadSecurityMiddleware, hp, hm, hf, hsan, hft, hsize, log_security_event]

/-- An upload request whose filename `a.pdf<` sanitizes to the allow-listed
`a.pdf`. -/
def strayBracketRequest : Request :=
  { method := "POST", path := "/api/generate-boq", x_forwarded_for := none,
    client_host := "8.8.8.8", authorization := none, query_params := [],
    body := [], form_file := some ⟨"a.pdf<", "x".data⟩, form_categories := none }

/-- The upload request of the spec's test vector: filename
`../../etc/passwd`, content `b"x"`. -/
def passwdRequest : Request :=
  { method := "POST", path := "/api/generate-boq", x_forwarded_for := none,
    client_host := "8.8.8.8", authorization := none, query_params := [],
    body := [], form_file := some ⟨"../../etc/passwd", "x".data⟩, form_categories := none }

/-- C6 fails on the code as a statement about the sanitized name: the upload
middleware passes the original `filename` to `validate_file_type`
(`security_middleware.py` line 114), not the sanitized one it computed just
above.  For `a.pdf<` the sanitized name's extension is allow-listed yet the
middleware rejects the upload as an invalid file type. -/
theorem c6_counterexample :
    validate_file_type (sanitize_filename "a.pdf<".data) allowed_extensions = true
    ∧ validate_file_type "a.pdf<".data allowed_extensions = false
    ∧ (FileUploadSecurityMiddleware rootEndpoint strayBracketRequest pstate0).1
        = ⟨400, "Invalid file type", []⟩ :=
  ⟨by decide, by decide, rfl⟩

/-- C6 (amended): the extension check runs on the original filename (the
sanitized name is computed only for the warning log).  For the input
`../../etc/passwd` with content `b"x"`: the sanitized filename contains no
`../`, and the upload is rejected as an invalid file type because the
lower-cased suffix after the final dot of the original name —
`/etc/passwd` — is not in the allow-list; a `SUSPICIOUS_FILENAME` warning
event is logged before the `INVALID_FILE_TYPE` event. -/
theorem c6_extension_check_amended :
    sanitize_filename "../../etc/passwd".data = "etc/passwd".data
    ∧ ¬ List.IsInfix "../".data (sanitize_filename "../../etc/passwd".data)
    ∧ pyLastExt "../../etc/passwd".data = "/etc/passwd".data
    ∧ allowed_extensions.contains (pyLastExt "../../etc/passwd".data) = false
    ∧ FileUploadSecurityMiddleware rootEndpoint passwdRequest pstate0
        = (⟨400, "Invalid file type", []⟩,
           ⟨initialSecState,
            [⟨"SUSPICIOUS_FILENAME", "8.8.8.8"⟩, ⟨"INVALID_FILE_TYPE", "8.8.8.8"⟩]⟩) :=
  ⟨by decide, by decide, by decide, by decide, rfl⟩

end BOQMate
